import Mathlib

/-!
Verification development for the TruCite front-end repository.

The repository consists of several variant iterations of the same browser
script (src/static/script.js holds three variants separated by document
markers; src/unnamed/part_000 … part_008 hold the rest).  Each variant reads
user text from the page, POSTs a JSON payload to a scoring backend, and paints
the JSON response (score gauge, verdict, ALLOW/REVIEW/BLOCK decision gate)
into DOM elements.

This file gives a shallow embedding of the parts of that code the claims
touch.  JavaScript values are modelled by the inductive `JSVal`; JS numbers
(IEEE doubles) are modelled by `JNum`, a rational together with a NaN point —
the scripts only compare, clamp and take linear combinations of scores, all of
which the rational model reflects faithfully on the ranges involved.  The
network is modelled by an oracle `String → FetchOutcome` mapping the URL/path
fetched to either a rejection (network error, CORS failure, abort) or an HTTP
response; `await res.json()` is modelled by the response's `json : Option
JSVal` component (`none` = body is not valid JSON, so `res.json()` throws).
-/

namespace TruCite

/-- Model of a JavaScript value as seen by these scripts: the JSON-decoded
backend responses plus `undefined` and the NaN number. -/
inductive JSVal where
  | null
  | undefined
  | bool (b : Bool)
  | num (q : ℚ)
  | nan
  | str (s : String)
  | arr (elems : List JSVal)
  | obj (fields : List (String × JSVal))

/-- JS truthiness: `undefined`, `null`, `false`, `0`, `NaN` and `""` are
falsy; every other value (including any object or array) is truthy. -/
def JSVal.truthy : JSVal → Bool
  | .null => false
  | .undefined => false
  | .bool b => b
  | .num q => q != 0
  | .nan => false
  | .str s => s != ""
  | .arr _ => true
  | .obj _ => true

/-- JS `a || b`: the first operand if truthy, otherwise the second. -/
def jsOr (a b : JSVal) : JSVal := if a.truthy then a else b

/-- JS `a && b`: the first operand if falsy, otherwise the second. -/
def jsAnd (a b : JSVal) : JSVal := if a.truthy then b else a

/-- JS `a ?? b`: the first operand unless it is `null`/`undefined`. -/
def jsNullish (a b : JSVal) : JSVal :=
  match a with
  | .null => b
  | .undefined => b
  | _ => a

/-- JS `typeof`.  Note `typeof null` is `"object"`, as in JavaScript. -/
def JSVal.typeofStr : JSVal → String
  | .null => "object"
  | .undefined => "undefined"
  | .bool _ => "boolean"
  | .num _ => "number"
  | .nan => "number"
  | .str _ => "string"
  | .arr _ => "object"
  | .obj _ => "object"

/-- Property access `v?.k` (optional chaining): field lookup on an object,
`undefined` on anything else.  The scripts use plain `v.k` only where `v` is
known to be an object, and `v?.k` elsewhere. -/
def JSVal.get (v : JSVal) (k : String) : JSVal :=
  match v with
  | .obj fields =>
      match fields.lookup k with
      | some x => x
      | none => .undefined
  | _ => .undefined

/-- Is the value a JS string? -/
def JSVal.isStr : JSVal → Bool
  | .str _ => true
  | _ => false

/-- A JS number: either NaN or a finite value (modelled as a rational). -/
inductive JNum where
  | nan
  | val (q : ℚ)
deriving DecidableEq

/-- The whitespace characters relevant here (JS `trim` also strips further
Unicode whitespace, which never occurs in these inputs). -/
def isJsSpace (c : Char) : Bool :=
  c = ' ' || c = '\t' || c = '\n' || c = '\r'

/-- JS `s.trim()`: strip leading and trailing whitespace. -/
def jsTrim (s : String) : String :=
  String.mk (((s.toList.dropWhile isJsSpace).reverse.dropWhile isJsSpace).reverse)

/-- JS `s.toUpperCase()` (ASCII, which is all these scripts compare). -/
def jsToUpperCase (s : String) : String :=
  String.mk (s.toList.map Char.toUpper)

/-- Decimal digit run to a natural number (`none` if empty or non-digits). -/
def digitsToNat? (cs : List Char) : Option Nat :=
  if cs ≠ [] && cs.all Char.isDigit then
    some (cs.foldl (fun n c => n * 10 + (c.toNat - 48)) 0)
  else none

/-- Digit run allowed to be empty: an empty run contributes 0 digits. -/
def digitsToNatOpt (cs : List Char) : Option Nat :=
  if cs = [] then some 0 else digitsToNat? cs

/-- Split a character list at every `'.'`. -/
def splitOnDot : List Char → List (List Char)
  | [] => [[]]
  | c :: rest =>
      let r := splitOnDot rest
      if c = '.' then [] :: r
      else
        match r with
        | h :: t => (c :: h) :: t
        | [] => [[c]]

/-- Value of an unsigned decimal literal `a` or `a.b` (either side of the
point may be empty but not both). -/
def parseUnsignedDec? (u : List Char) : Option ℚ :=
  match splitOnDot u with
  | [a] => (digitsToNat? a).map (fun n => (n : ℚ))
  | [a, b] =>
      if a = [] ∧ b = [] then none
      else
        match digitsToNatOpt a, digitsToNat? b with
        | some n, some f =>
            some ((n : ℚ) + (f : ℚ) / ((10 : ℚ) ^ b.length))
        | some n, none => if b = [] then some ((n : ℚ)) else none
        | none, _ => none
  | _ => none

/-- JS `Number(s)` on a string, restricted to the plain decimal forms the
repository can meet (optional sign, digits, optional fraction); the empty or
all-whitespace string is 0 and anything unrecognised (including the
hexadecimal and exponent forms no theorem below ever feeds it) is NaN. -/
def strToNum (s : String) : JNum :=
  match (jsTrim s).toList with
  | [] => .val 0
  | '-' :: rest =>
      match parseUnsignedDec? rest with
      | some q => .val (-q)
      | none => .nan
  | '+' :: rest =>
      match parseUnsignedDec? rest with
      | some q => .val q
      | none => .nan
  | t =>
      match parseUnsignedDec? t with
      | some q => .val q
      | none => .nan

/-- JS `ToNumber` coercion (`Number(v)`), as the scripts exercise it. -/
def JSVal.toNumber : JSVal → JNum
  | .null => .val 0
  | .undefined => .nan
  | .bool b => .val (if b then 1 else 0)
  | .num q => .val q
  | .nan => .nan
  | .str s => strToNum s
  | .arr [] => .val 0
  | .arr [x] => x.toNumber
  | .arr (_ :: _ :: _) => .nan
  | .obj _ => .nan

/-- The idiom `Number(v) || 0`: NaN (falsy) and 0 both collapse to 0, every
other number passes through. -/
def numOr0 (n : JNum) : ℚ :=
  match n with
  | .nan => 0
  | .val q => q

/-- JS `Math.min` (NaN-propagating). -/
def jsMin (a b : JNum) : JNum :=
  match a, b with
  | .val x, .val y => .val (min x y)
  | _, _ => .nan

/-- JS `Math.max` (NaN-propagating). -/
def jsMax (a b : JNum) : JNum :=
  match a, b with
  | .val x, .val y => .val (max x y)
  | _, _ => .nan

/-- NaN-propagating subtraction. -/
def JNum.sub : JNum → JNum → JNum
  | .val x, .val y => .val (x - y)
  | _, _ => .nan

/-- NaN-propagating multiplication (no infinities arise in these scripts). -/
def JNum.mul : JNum → JNum → JNum
  | .val x, .val y => .val (x * y)
  | _, _ => .nan

/-- NaN-propagating division; the scripts only ever divide by 100. -/
def JNum.div : JNum → JNum → JNum
  | .val x, .val y => if y = 0 then .nan else .val (x / y)
  | _, _ => .nan

/-- JS `Math.round`: round half towards positive infinity. -/
def jsRound (q : ℚ) : ℤ := ⌊q + 1/2⌋

mutual

/-- JS string conversion, as used for `el.textContent = v` and
`(…).toString()`.  Non-integral rationals are printed `num/den`; JavaScript
prints decimals instead, but no theorem below evaluates `toStr` at a
non-integral number. -/
def JSVal.toStr : JSVal → String
  | .null => "null"
  | .undefined => "undefined"
  | .bool b => if b then "true" else "false"
  | .num q =>
      if q.den = 1 then toString q.num
      else toString q.num ++ "/" ++ toString q.den
  | .nan => "NaN"
  | .str s => s
  | .arr xs => String.intercalate "," (JSVal.toStrList xs)
  | .obj _ => "[object Object]"

def JSVal.toStrList : List JSVal → List String
  | [] => []
  | x :: xs => JSVal.toStr x :: JSVal.toStrList xs

end

/-- Does `pat` occur as a contiguous run inside some suffix of `s`? -/
def strIncludesAux (pat : List Char) : List Char → Bool
  | [] => pat.isPrefixOf []
  | c :: cs => pat.isPrefixOf (c :: cs) || strIncludesAux pat cs

/-- JS `s.includes(pat)`. -/
def strIncludes (s pat : String) : Bool := strIncludesAux pat.toList s.toList

/-- An HTTP response as the scripts observe it: status, body text, and the
result of `res.json()` (`none` when the body is not valid JSON and
`res.json()` would throw). -/
structure HttpResp where
  status : Nat
  body : String
  json : Option JSVal

/-- `res.ok`: status in the 2xx range. -/
def HttpResp.isOk (r : HttpResp) : Bool := 200 ≤ r.status && r.status < 300

/-- Outcome of one `fetch`: the promise rejects (network error, CORS, abort)
or resolves with a response. -/
inductive FetchOutcome where
  | reject (msg : String)
  | resp (r : HttpResp)

/-- One HTTP request issued by a variant: its method and the endpoint path
(the absolute-URL fallbacks prepend `location.origin` to the same path). -/
structure Req where
  method : String
  path : String
deriving DecidableEq

/-- What one verify click renders: the empty-input early return, the error UI
(with the message and detail text handed to the variant's error renderer), or
the success rendering of the parsed response object. -/
inductive ClickRender where
  | noInput
  | errorUI (msg details : String)
  | success (data : JSVal)

/-- Result of one verify click in the variants that keep no module state
(part_000, part_001, part_002, part_003, part_007). -/
structure SimpleClickOut where
  requests : List Req
  render : ClickRender

/-- The error-path writes a variant makes to the shared page elements; `none`
means the handler does not touch that element (or the page lacks it). -/
structure ErrState where
  scoreText : Option String
  verdictText : Option String
  actionText : Option String
  reasonText : Option String
  resultText : Option String
deriving DecidableEq

/-- What awaiting `callVerify(payload)` yields inside the caller's try block:
a response, or a thrown rejection (caught by the caller). -/
inductive CallResult where
  | thrown (msg : String)
  | response (r : HttpResp)

/-- The module-level state of the script.js variants:
`let lastPayload = null; let lastResponse = null;`. -/
structure SState where
  lastPayload : Option (List (String × JSVal))
  lastResponse : Option JSVal

/-- Result of one click on VERIFY for the script.js flow: the requests issued,
the new module state, and what was rendered. -/
structure ClickOut where
  requests : List Req
  state : SState
  render : ClickRender

namespace scriptV1

/-!
Model of the first variant in src/static/script.js (lines 1-340).  The third
variant of that file (lines 443-767) and src/unnamed/part_004 contain the same
`callVerify`/`onVerify` (there named `scoreText` in the third variant) code
verbatim, so these definitions embed those variants as well; the doc comments
note the differences where the variants diverge (only the gauge formula).
-/

/-- script.js lines 168-174, `updateGauge`:
`const s = Math.max(0, Math.min(100, Number(score) || 0)); rot = (s/100)*maxDeg`
with `maxDeg = 180`.  Returns the rotation in degrees.  (`Number(score) || 0`
is a finite number, so the `Math.max`/`Math.min` never see NaN here.) -/
def updateGauge (score : JSVal) : ℚ :=
  let s : ℚ := max 0 (min 100 (numOr0 score.toNumber))
  (s / 100) * 180

/-- script.js lines 187-198, `setErrorUI` (identical in part_004 lines
130-141; the third script.js variant adds `updateGauge(0)` and a newline in
the result body).  Writes `--`, `Error`, `REVIEW` and the messages. -/
def setErrorUI (msg details : String) : ErrState :=
  { scoreText := some "--"
    verdictText := some "Error"
    actionText := some "REVIEW"
    reasonText := some (if msg = "" then "Backend unavailable or route mismatch." else msg)
    resultText := some (if details ≠ "" then "Backend error: " ++ details
                        else if msg ≠ "" then msg else "Backend error") }

/-- The texts script.js lines 200-218 `renderResponse` paints (identically in
part_004 lines 143-160 and the third script.js variant lines 642-660, whose
gauges use the 260-dashoffset formula instead of the rotation; the
`lastResponse = data` assignment is modelled in `onVerify` and the raw
`safeJson(data)` dump into `resultPre` carries no claim).  The decision action
is `data?.decision?.action || "REVIEW"` painted with `textContent`. -/
structure RenderedResponse where
  scoreText : String
  verdictText : String
  gaugeRot : ℚ
  actionText : String
  reasonText : String

def renderResponse (data : JSVal) : RenderedResponse :=
  let score := jsNullish (data.get "score") (.str "--")
  { scoreText := score.toStr
    verdictText := (jsOr (data.get "verdict") (.str "")).toStr
    gaugeRot := updateGauge (.num (numOr0 score.toNumber))
    actionText := (jsOr ((data.get "decision").get "action") (.str "REVIEW")).toStr
    reasonText := (jsOr ((data.get "decision").get "reason") (.str "")).toStr }

/-- script.js lines 234-254, `callVerify` (identical in part_004 lines
163-180 and the third script.js variant lines 663-683): POST the payload to
the relative `/verify`; if that fetch rejects (`.catch(() => null)`), POST the
same payload again to `location.origin + "/verify"`, this time letting a
rejection propagate to the caller's try/catch.  Both requests carry the same
endpoint path; the network oracle is keyed by the URL fetched. -/
def callVerify (origin : String) (net : String → FetchOutcome) :
    List Req × CallResult :=
  match net "/verify" with
  | .resp r => ([⟨"POST", "/verify"⟩], .response r)
  | .reject _ =>
      match net (origin ++ "/verify") with
      | .resp r => ([⟨"POST", "/verify"⟩, ⟨"POST", "/verify"⟩], .response r)
      | .reject m => ([⟨"POST", "/verify"⟩, ⟨"POST", "/verify"⟩], .thrown m)

/-- The payload of script.js lines 266-270 (identical in part_004 lines
192-196, the third script.js variant lines 695-699, and — with
`CONFIG.POLICY_MODE` in place of the literal — part_005/part_006):
`{ text, evidence: evidence || "", policy_mode: "enterprise" }` where `text`
and `evidence` are the trimmed textarea values. -/
def requestBody (text evidence : String) : List (String × JSVal) :=
  [("text", .str text),
   ("evidence", jsOr (.str evidence) (.str "")),
   ("policy_mode", .str "enterprise")]

/-- script.js lines 257-295, `onVerify` (identical in part_004 lines 183-217
and the third script.js variant lines 686-720, there named `scoreText`):
trim the inputs, bail out on empty text, store `lastPayload`, call
`callVerify`, and either render the parsed JSON (storing `lastResponse`) or
render the error UI.  Every failure is absorbed by the try/catch. -/
def onVerify (st : SState) (input evid origin : String)
    (net : String → FetchOutcome) : ClickOut :=
  let text := jsTrim input
  let evidence := jsTrim evid
  if text = "" then { requests := [], state := st, render := .noInput }
  else
    let payload := requestBody text evidence
    let st1 : SState := { st with lastPayload := some payload }
    match callVerify origin net with
    | (reqs, .thrown m) =>
        { requests := reqs, state := st1
          render := .errorUI "could not score. Check backend route and try again." m }
    | (reqs, .response r) =>
        if r.isOk then
          match r.json with
          | some d =>
              { requests := reqs
                state := { st1 with lastResponse := some d }
                render := .success d }
          | none =>
              { requests := reqs, state := st1
                render := .errorUI "could not score. Check backend route and try again."
                  "SyntaxError: unexpected response body" }
        else
          { requests := reqs, state := st1
            render := .errorUI "could not score. Check backend route and try again."
              (if r.body = "" then toString r.status else r.body) }

end scriptV1

namespace scriptV2

/-!
Model of the second, standalone `scoreText` variant in src/static/script.js
(lines 341-442): a single POST to `/api/score`, no decision-gate element on
its page, and a catch block that writes only an error message and the verdict
`Engine error`.
-/

/-- script.js line 372: this variant POSTs to the inline endpoint
`/api/score`. -/
def endpointPath : String := "/api/score"

/-- The request body of script.js lines 372-376: `{ text, evidence }` with the
trimmed textarea values. -/
def requestBody (text evidence : String) : List (String × JSVal) :=
  [("text", .str text), ("evidence", .str evidence)]

/-- script.js lines 438-441, the catch block: `resultEl.textContent = "Error
communicating with TruCite engine:\n" + err.message; scoreVerdict.textContent
= "Engine error"`.  No decision-action element exists in this variant and
none is written. -/
def catchRender (errMessage : String) : ErrState :=
  { scoreText := none
    verdictText := some "Engine error"
    actionText := none
    reasonText := none
    resultText := some ("Error communicating with TruCite engine:\n" ++ errMessage) }

/-- script.js lines 341-442, the standalone `scoreText` variant: trim the
inputs, return early on empty text (lines 357-360), POST `{ text, evidence }`
once to `/api/score`; a non-OK status (lines 378-381) and a JSON parse
failure throw into the catch block (lines 438-441); on success the gauge,
verdict, claims table and raw JSON are rendered.  This variant keeps no
module state. -/
def scoreText (input evid : String) (net : String → FetchOutcome) : SimpleClickOut :=
  let text := jsTrim input
  let _evidence := jsTrim evid
  if text = "" then { requests := [], render := .noInput }
  else
    match net endpointPath with
    | .reject m =>
        { requests := [⟨"POST", endpointPath⟩]
          render := .errorUI "Engine error" m }
    | .resp r =>
        if r.isOk then
          match r.json with
          | some d => { requests := [⟨"POST", endpointPath⟩], render := .success d }
          | none =>
              { requests := [⟨"POST", endpointPath⟩]
                render := .errorUI "Engine error" "SyntaxError: unexpected response body" }
        else
          { requests := [⟨"POST", endpointPath⟩]
            render := .errorUI "Engine error"
              ("HTTP " ++ toString r.status ++ ": " ++ r.body) }

end scriptV2

namespace part000

/-- part_000 line 23: `const BACKEND_ENDPOINT = "/api/score";`. -/
def BACKEND_ENDPOINT : String := "/api/score"

/-- The request body of part_000 lines 51-55: `{ text }` only. -/
def requestBody (text : String) : List (String × JSVal) :=
  [("text", .str text)]

/-- part_000 lines 86-95, the catch block (`HARD FAIL — NO FAKE SCORE`):
score display `--`, verdict `Backend connection failed`, and a `POST failed`
dump into `result`.  No decision-gate element exists in this variant. -/
def catchRender (errDetail : String) : ErrState :=
  { scoreText := some "--"
    verdictText := some "Backend connection failed"
    actionText := none
    reasonText := none
    resultText := some ("❌ POST failed.\n\nEndpoint: " ++ BACKEND_ENDPOINT
                        ++ "\n\nError: " ++ errDetail) }


/-- part_000 lines 26-96, `scoreText`: trim the input, return early on empty
text (lines 33-37, writing only a prompt into `result`), otherwise POST
`{ text }` to `/api/score`; non-OK statuses and parse failures throw into the
catch block. -/
def scoreText (input : String) (net : String → FetchOutcome) : SimpleClickOut :=
  let text := jsTrim input
  if text = "" then { requests := [], render := .noInput }
  else
    match net BACKEND_ENDPOINT with
    | .reject m =>
        { requests := [⟨"POST", BACKEND_ENDPOINT⟩], render := .errorUI "Backend connection failed" m }
    | .resp r =>
        if r.isOk then
          match r.json with
          | some d => { requests := [⟨"POST", BACKEND_ENDPOINT⟩], render := .success d }
          | none =>
              { requests := [⟨"POST", BACKEND_ENDPOINT⟩]
                render := .errorUI "Backend connection failed" "SyntaxError: unexpected response body" }
        else
          { requests := [⟨"POST", BACKEND_ENDPOINT⟩]
            render := .errorUI "Backend connection failed"
              ("HTTP " ++ toString r.status ++ ": " ++ r.body) }

end part000

/-- What `gateActionEl.textContent` / `gateReasonEl.textContent` end up
holding after a decision-gate render in part_001/part_002/part_008. -/
structure GateUI where
  actionText : String
  reasonText : String
deriving DecidableEq

namespace part001

/-- part_001 line 7: `const API_PATH = "/score";`. -/
def API_PATH : String := "/score"

/-- The request body of part_001 lines 123-126: `{ text, evidence }`. -/
def requestBody (text evidence : String) : List (String × JSVal) :=
  [("text", .str text), ("evidence", .str evidence)]

/-- part_001 lines 13-24, `setGauge`:
`s = clamp(Number(score) || 0, 0, 100); offset = dashTotal - (dashTotal*s)/100;
scoreDisplay.textContent = String(Math.round(s))` with `dashTotal = 260`.
Returns the stroke-dashoffset and the rounded displayed score.  (part_002
lines 13-24 and part_008 lines 13-24 contain this function verbatim.) -/
def setGauge (score : JSVal) : ℚ × ℤ :=
  let s : ℚ := max 0 (min 100 (numOr0 score.toNumber))
  (260 - (260 * s) / 100, jsRound s)

/-- part_001 lines 42-93, `setDecisionGate`: pick the first truthy of
`decision_gate`/`decision`/`gate`/`verdict_action`/`action`; normalise a
string gate by ALLOW/PASS/APPROVE vs BLOCK/FAIL/DENY substrings, an object
gate by the same test on `(action || outcome || label || "").toString()
.toUpperCase()`; build the reason fallback chain; and when no action was
derived, infer it from the numeric score:
`action = s >= 80 ? "ALLOW" : s < 50 ? "BLOCK" : "REVIEW"` with
`s = clamp(Number(score) || 0, 0, 100)`. -/
def setDecisionGate (data score : JSVal) : GateUI :=
  let gate := jsOr (data.get "decision_gate") (jsOr (data.get "decision")
      (jsOr (data.get "gate") (jsOr (data.get "verdict_action")
      (jsOr (data.get "action") JSVal.null))))
  let action : Option String :=
    match gate with
    | .str gs =>
        let g := jsToUpperCase gs
        if strIncludes g "ALLOW" || strIncludes g "PASS" || strIncludes g "APPROVE" then some "ALLOW"
        else if strIncludes g "BLOCK" || strIncludes g "FAIL" || strIncludes g "DENY" then some "BLOCK"
        else some "REVIEW"
    | _ =>
        if gate.truthy && gate.typeofStr == "object" then
          let raw := jsToUpperCase (jsOr (gate.get "action") (jsOr (gate.get "outcome")
              (jsOr (gate.get "label") (.str "")))).toStr
          if strIncludes raw "ALLOW" || strIncludes raw "PASS" || strIncludes raw "APPROVE" then some "ALLOW"
          else if strIncludes raw "BLOCK" || strIncludes raw "FAIL" || strIncludes raw "DENY" then some "BLOCK"
          else some "REVIEW"
        else none
  let reason := jsOr (jsAnd (jsAnd gate (.bool (gate.typeofStr == "object")))
      (jsOr (gate.get "reason") (jsOr (gate.get "rationale") (gate.get "explanation"))))
    (jsOr (data.get "gate_reason") (jsOr (data.get "reason")
      (jsOr (data.get "rationale") (jsOr (data.get "explanation")
      (.str "See validation details below.")))))
  match action with
  | none =>
      let s : ℚ := max 0 (min 100 (numOr0 score.toNumber))
      { actionText := if 80 ≤ s then "ALLOW" else if s < 50 then "BLOCK" else "REVIEW"
        reasonText := "Inferred from Truth Score threshold (configurable)." }
  | some a => { actionText := a, reasonText := reason.toStr }

/-- part_001 lines 167-174, the catch block of `scoreText`: verdict `Error`,
gate action `REVIEW`, gate reason `Backend unavailable or route mismatch.`,
and the error text into `result` (the `verifyStatus` line is not an element
this structure tracks).  part_002 lines 153-160 and part_008 lines 209-216
are identical. -/
def catchRender (errDetail : String) : ErrState :=
  { scoreText := none
    verdictText := some "Error"
    actionText := some "REVIEW"
    reasonText := some "Backend unavailable or route mismatch."
    resultText := some errDetail }

/-- part_001 lines 95-175, `scoreText`: trim the inputs, return early on
empty text (lines 104-107), POST `{ text, evidence }` to `/score`; a non-OK
status throws into the catch block (lines 167-174), as does a JSON parse
failure; on success the gauge, verdict and decision gate are rendered. -/
def scoreText (input evid : String) (net : String → FetchOutcome) : SimpleClickOut :=
  let text := jsTrim input
  let _evidence := jsTrim evid
  if text = "" then { requests := [], render := .noInput }
  else
    match net API_PATH with
    | .reject m =>
        { requests := [⟨"POST", API_PATH⟩]
          render := .errorUI "Error: could not score. Check backend route and try again." m }
    | .resp r =>
        if r.isOk then
          match r.json with
          | some d => { requests := [⟨"POST", API_PATH⟩], render := .success d }
          | none =>
              { requests := [⟨"POST", API_PATH⟩]
                render := .errorUI "Error: could not score. Check backend route and try again."
                  "SyntaxError: unexpected response body" }
        else
          { requests := [⟨"POST", API_PATH⟩]
            render := .errorUI "Error: could not score. Check backend route and try again."
              ("Backend error (" ++ toString r.status ++ "): " ++ r.body) }

end part001

namespace part002

/-- part_002 line 7: `const API_PATH = "/verify";`. -/
def API_PATH : String := "/verify"

/-- The request body of part_002 line 112: `{ text, evidence }`. -/
def requestBody (text evidence : String) : List (String × JSVal) :=
  [("text", .str text), ("evidence", .str evidence)]

/-- part_002 lines 40-82, `setDecisionGateFromBackend`: read
`decision || decision_gate || gate`; when it is an object take
`action || outcome || label` and `reason || rationale || explanation`;
normalise a string action by the ALLOW/PASS/APPROVE vs BLOCK/FAIL/DENY
substring test; when the action is still falsy infer it from the score
(`s >= 80 ? "ALLOW" : s < 50 ? "BLOCK" : "REVIEW"`); a truthy non-string
action (e.g. a number) is painted as-is by `textContent`. -/
def setDecisionGateFromBackend (data score : JSVal) : GateUI :=
  let decisionObj := jsOr (data.get "decision") (jsOr (data.get "decision_gate")
      (jsOr (data.get "gate") JSVal.null))
  let isObj := decisionObj.truthy && decisionObj.typeofStr == "object"
  let action1 : JSVal :=
    if isObj then
      jsOr (decisionObj.get "action") (jsOr (decisionObj.get "outcome")
        (jsOr (decisionObj.get "label") JSVal.null))
    else JSVal.null
  let reason1 : JSVal :=
    if isObj then
      jsOr (decisionObj.get "reason") (jsOr (decisionObj.get "rationale")
        (jsOr (decisionObj.get "explanation") JSVal.null))
    else JSVal.null
  let action2 : JSVal :=
    match action1 with
    | .str as =>
        let a := jsToUpperCase as
        .str (if strIncludes a "ALLOW" || strIncludes a "PASS" || strIncludes a "APPROVE" then "ALLOW"
              else if strIncludes a "BLOCK" || strIncludes a "FAIL" || strIncludes a "DENY" then "BLOCK"
              else "REVIEW")
    | _ => action1
  if !action2.truthy then
    let s : ℚ := max 0 (min 100 (numOr0 score.toNumber))
    { actionText := if 80 ≤ s then "ALLOW" else if s < 50 then "BLOCK" else "REVIEW"
      reasonText := "Inferred from Truth Score threshold (configurable)." }
  else
    { actionText := action2.toStr
      reasonText := (if !reason1.truthy then JSVal.str "See validation details below."
                     else reason1).toStr }

/-- part_002 lines 84-161, `scoreText` — the same flow as part_001's (trim,
early return on empty text at lines 93-96, one POST of `{ text, evidence }`
to `/verify`, throwing error paths caught at lines 153-160). -/
def scoreText (input evid : String) (net : String → FetchOutcome) : SimpleClickOut :=
  let text := jsTrim input
  let _evidence := jsTrim evid
  if text = "" then { requests := [], render := .noInput }
  else
    match net API_PATH with
    | .reject m =>
        { requests := [⟨"POST", API_PATH⟩]
          render := .errorUI "Error: could not score. Check backend route and try again." m }
    | .resp r =>
        if r.isOk then
          match r.json with
          | some d => { requests := [⟨"POST", API_PATH⟩], render := .success d }
          | none =>
              { requests := [⟨"POST", API_PATH⟩]
                render := .errorUI "Error: could not score. Check backend route and try again."
                  "SyntaxError: unexpected response body" }
        else
          { requests := [⟨"POST", API_PATH⟩]
            render := .errorUI "Error: could not score. Check backend route and try again."
              ("Backend error (" ++ toString r.status ++ "): " ++ r.body) }

end part002

namespace part003

/-- part_003 line 2: the backend base URL; all requests go to
`API_BASE + "/verify"`, endpoint path `/verify`. -/
def API_BASE : String := "https://trucite-backend.onrender.com"

/-- part_003 line 43: the fetch goes to `${API_BASE}/verify`, endpoint path
`/verify`. -/
def endpointPath : String := "/verify"

/-- The request body of part_003 line 46: `{ text }` only. -/
def requestBody (text : String) : List (String × JSVal) :=
  [("text", .str text)]

/-- part_003 lines 72-78, the catch block: verdict `Error`, score `--`,
gauge reset, and the error text into `result`; this variant also has no
decision-gate element. -/
def catchRender (errMessage : String) : ErrState :=
  { scoreText := some "--"
    verdictText := some "Error"
    actionText := none
    reasonText := none
    resultText := some ("Error communicating with TruCite engine:\n" ++ errMessage) }

/-- part_003 lines 9-79, `scoreText` (modelled for a page carrying all the
element ids, so the missing-id alert guard at lines 16-26 does not fire):
trim the input, return early on empty text (lines 29-35), POST `{ text }` to
`API_BASE + "/verify"`; the body is read once, a non-OK status or a JSON
parse failure throws into the catch block (lines 72-78). -/
def scoreText (input : String) (net : String → FetchOutcome) : SimpleClickOut :=
  let text := jsTrim input
  if text = "" then { requests := [], render := .noInput }
  else
    match net (API_BASE ++ endpointPath) with
    | .reject m =>
        { requests := [⟨"POST", endpointPath⟩]
          render := .errorUI "Error communicating with TruCite engine" m }
    | .resp r =>
        if r.isOk then
          match r.json with
          | some d => { requests := [⟨"POST", endpointPath⟩], render := .success d }
          | none =>
              { requests := [⟨"POST", endpointPath⟩]
                render := .errorUI "Error communicating with TruCite engine"
                  ("Engine returned non-JSON: " ++ r.body) }
        else
          { requests := [⟨"POST", endpointPath⟩]
            render := .errorUI "Error communicating with TruCite engine"
              ("HTTP " ++ toString r.status ++ ": " ++ r.body) }

end part003

namespace part007

/-- part_007 line 5: `const API_VERIFY = "/verify";`. -/
def API_VERIFY : String := "/verify"

/-- part_007 line 7, `clamp(n, 0, 100)` as `setGauge` calls it:
`Math.max(0, Math.min(100, n))` on the raw argument, so a non-numeric or NaN
input propagates NaN (there is no `Number(.) || 0` coercion here). -/
def clamp (score : JSVal) : JNum :=
  jsMax (.val 0) (jsMin (.val 100) score.toNumber)

/-- part_007 lines 9-20, `setGauge`:
`pct = clamp(score, 0, 100) / 100; offset = total - total * pct` with
`total = 260`.  Returns the stroke-dashoffset written to the gauge. -/
def setGauge (score : JSVal) : JNum :=
  ((JNum.val 260).sub ((JNum.val 260).mul ((clamp score).div (.val 100))))

/-- The request body of part_007 line 61:
`{ text, evidence: evidence || null }` — an empty trimmed evidence string is
falsy, so the serialized `evidence` field is `null`, not a string. -/
def requestBody (text evidence : String) : List (String × JSVal) :=
  [("text", .str text), ("evidence", jsOr (.str evidence) JSVal.null)]

/-- part_007 lines 100-104, the catch block: verdict `Engine error`, a status
line, and the error into `result`; no decision-gate element exists (the
non-OK branch at lines 64-70 writes the same verdict). -/
def catchRender (errText : String) : ErrState :=
  { scoreText := none
    verdictText := some "Engine error"
    actionText := none
    reasonText := none
    resultText := some errText }

/-- part_007 lines 37-105, `scoreText`: trim the inputs, return early on
empty text (lines 45-50), POST `{ text, evidence: evidence || null }` to
`/verify`; a non-OK status is rendered inline (lines 64-70, no throw), a
rejected fetch or JSON parse failure falls into the catch block (lines
100-104). -/
def scoreText (input evid : String) (net : String → FetchOutcome) : SimpleClickOut :=
  let text := jsTrim input
  let _evidence := jsTrim evid
  if text = "" then { requests := [], render := .noInput }
  else
    match net API_VERIFY with
    | .reject m =>
        { requests := [⟨"POST", API_VERIFY⟩]
          render := .errorUI "Error communicating with TruCite engine." m }
    | .resp r =>
        if r.isOk then
          match r.json with
          | some d => { requests := [⟨"POST", API_VERIFY⟩], render := .success d }
          | none =>
              { requests := [⟨"POST", API_VERIFY⟩]
                render := .errorUI "Error communicating with TruCite engine."
                  "SyntaxError: unexpected response body" }
        else
          { requests := [⟨"POST", API_VERIFY⟩]
            render := .errorUI ("Error communicating with TruCite engine: HTTP "
              ++ toString r.status) r.body }

end part007

namespace part008

/-- part_008 line 7: `const API_PATH = "/verify";`. -/
def API_PATH : String := "/verify"

/-- The request body of part_008 line 170:
`{ text, evidence, policy_mode: "enterprise" }`. -/
def requestBody (text evidence : String) : List (String × JSVal) :=
  [("text", .str text), ("evidence", .str evidence), ("policy_mode", .str "enterprise")]

/-- part_008 lines 40-74, `setDecisionGateFromBackend` — the same function,
verbatim, as part_002's (see `part002.setDecisionGateFromBackend`), including
the score-threshold fallback at lines 61-65. -/
def setDecisionGateFromBackend (data score : JSVal) : GateUI :=
  let decisionObj := jsOr (data.get "decision") (jsOr (data.get "decision_gate")
      (jsOr (data.get "gate") JSVal.null))
  let isObj := decisionObj.truthy && decisionObj.typeofStr == "object"
  let action1 : JSVal :=
    if isObj then
      jsOr (decisionObj.get "action") (jsOr (decisionObj.get "outcome")
        (jsOr (decisionObj.get "label") JSVal.null))
    else JSVal.null
  let reason1 : JSVal :=
    if isObj then
      jsOr (decisionObj.get "reason") (jsOr (decisionObj.get "rationale")
        (jsOr (decisionObj.get "explanation") JSVal.null))
    else JSVal.null
  let action2 : JSVal :=
    match action1 with
    | .str as =>
        let a := jsToUpperCase as
        .str (if strIncludes a "ALLOW" || strIncludes a "PASS" || strIncludes a "APPROVE" then "ALLOW"
              else if strIncludes a "BLOCK" || strIncludes a "FAIL" || strIncludes a "DENY" then "BLOCK"
              else "REVIEW")
    | _ => action1
  if !action2.truthy then
    let s : ℚ := max 0 (min 100 (numOr0 score.toNumber))
    { actionText := if 80 ≤ s then "ALLOW" else if s < 50 then "BLOCK" else "REVIEW"
      reasonText := "Inferred from Truth Score threshold (configurable)." }
  else
    { actionText := action2.toStr
      reasonText := (if !reason1.truthy then JSVal.str "See validation details below."
                     else reason1).toStr }

/-- The module-level state of part_008: `let lastResponseJson = null;`. -/
structure P8State where
  lastResponseJson : Option JSVal

/-- Result of one verify click of part_008's `scoreText`. -/
structure P8ClickOut where
  requests : List Req
  state : P8State
  render : ClickRender

/-- part_008 lines 143-217, `scoreText`: trim the inputs, return early on
empty text (lines 152-155), POST `{ text, evidence, policy_mode }` to
`/verify`; a non-OK status or a JSON parse failure throws into the catch
block; on success `lastResponseJson = data` (line 179) before rendering. -/
def scoreText (st : P8State) (input evid : String)
    (net : String → FetchOutcome) : P8ClickOut :=
  let text := jsTrim input
  let _evidence := jsTrim evid
  if text = "" then { requests := [], state := st, render := .noInput }
  else
    match net API_PATH with
    | .reject m =>
        { requests := [⟨"POST", API_PATH⟩], state := st
          render := .errorUI "Error: could not score. Check backend route and try again." m }
    | .resp r =>
        if r.isOk then
          match r.json with
          | some d =>
              { requests := [⟨"POST", API_PATH⟩]
                state := { lastResponseJson := some d }
                render := .success d }
          | none =>
              { requests := [⟨"POST", API_PATH⟩], state := st
                render := .errorUI "Error: could not score. Check backend route and try again."
                  "SyntaxError: unexpected response body" }
        else
          { requests := [⟨"POST", API_PATH⟩], state := st
            render := .errorUI "Error: could not score. Check backend route and try again."
              ("Backend error (" ++ toString r.status ++ "): " ++ r.body) }

end part008

/-- How one `fetchWithTimeout` call ends for the request it started. -/
inductive FetchEnd where
  | completed
  | aborted
deriving DecidableEq

/-- Timing semantics of `fetchWithTimeout` (part_005 lines 38-46 and,
verbatim, part_006 lines 32-40): `setTimeout(() => controller.abort(),
timeoutMs)` arms an abort of the in-flight fetch at `timeoutMs`, and the
`finally` block clears that timer only once the fetch has settled — so a
request that settles within the timeout completes un-aborted, and one still
in flight when the timer fires is aborted. -/
def fetchWithTimeoutEnd (durationMs timeoutMs : ℚ) : FetchEnd :=
  if durationMs ≤ timeoutMs then .completed else .aborted

namespace part005

/-- part_005 lines 8-18, `CONFIG`. -/
def API_BASE : String := "https://trucite-backend.onrender.com"
def POLICY_MODE : String := "enterprise"
def TIMEOUT_MS : ℚ := 15000
def SHOW_DEBUG : Bool := false

/-- part_005 lines 66-72, `stripHtml`: a falsy body becomes `""`, a body that
looks like an HTML page is replaced by a placeholder, anything else passes
through. -/
def stripHtml (raw : String) : String :=
  if raw = "" then ""
  else if strIncludes raw "<!doctype" || strIncludes raw "<html" || strIncludes raw "<title>" then
    "[backend returned HTML error body]"
  else raw

/-- part_005 lines 149-160, `setErrorUI` (`CONFIG.SHOW_DEBUG` is false, so the
debug text never reaches `result`): `--`, `Error`, `REVIEW` and the message. -/
def setErrorUI (userMsg debugText : String) : ErrState :=
  let dbg := if SHOW_DEBUG then stripHtml debugText else ""
  { scoreText := some "--"
    verdictText := some "Error"
    actionText := some "REVIEW"
    reasonText := some (if userMsg = "" then "Backend error." else userMsg)
    resultText := some (if dbg ≠ "" then "Backend error:\n" ++ dbg
                        else if userMsg ≠ "" then userMsg else "Backend error.") }

/-- part_005 lines 162-175, `normalizeDecision` (verbatim also part_006 lines
139-152): an object `decision` contributes `action || "REVIEW"` and
`reason || ""`; otherwise the action is the string `decision` or `"REVIEW"`
and the reason comes from the `decision_detail`/`decision_reason`/`reason`
fallback chain.  Returns the (action, reason) pair of JS values. -/
def normalizeDecision (data : JSVal) : JSVal × JSVal :=
  let rawDecision := data.get "decision"
  if rawDecision.truthy && rawDecision.typeofStr == "object" then
    (jsOr (rawDecision.get "action") (.str "REVIEW"),
     jsOr (rawDecision.get "reason") (.str ""))
  else
    let action := jsOr (match rawDecision with | .str s => JSVal.str s | _ => JSVal.null)
        (.str "REVIEW")
    let reason := jsOr ((data.get "decision_detail").get "reason")
        (jsOr (data.get "decision_reason") (jsOr (data.get "reason")
        (jsOr ((data.get "decision_detail").get "message") (.str ""))))
    (action, reason)

/-- part_005 lines 116-130, `updateGauge`:
`s = Math.max(0, Math.min(100, Number(val) || 0)); offset = total - (s/100)*total`
with `total = 260`.  Returns the final stroke-dashoffset (the animation frames
are presentation only). -/
def updateGauge (val : JSVal) : ℚ :=
  let s : ℚ := max 0 (min 100 (numOr0 val.toNumber))
  260 - (s / 100) * 260

/-- part_005 lines 179-239, `buildPublicContract`: the sanitized public
contract object assembled from the backend response, reproduced field by
field. -/
def buildPublicContract (data : JSVal) : JSVal :=
  let sig := jsOr (data.get "signals") (.obj [])
  let decisionObj := normalizeDecision data
  let volatility := jsNullish (sig.get "volatility") (.str "STABLE")
  let category := jsNullish (sig.get "volatility_category") (.str "GENERAL")
  let evidenceStatus := jsNullish (sig.get "evidence_validation_status") (.str "MISSING")
  let evidenceTrustTier := jsNullish (sig.get "evidence_trust_tier") (.str "—")
  let evidenceConfidence :=
    if (sig.get "evidence_confidence").typeofStr == "number" then sig.get "evidence_confidence"
    else JSVal.null
  let policyMode := jsOr ((data.get "policy").get "mode")
      (jsOr (data.get "policy_mode") (.str POLICY_MODE))
  let policyVer := jsOr ((data.get "policy").get "version")
      (jsOr (data.get "policy_version") (.str ""))
  let policyHash := jsOr ((data.get "policy").get "hash")
      (jsOr (data.get "policy_hash") (.str ""))
  let executionCommit := jsNullish (data.get "execution_commit")
      (.obj [("authorized", .bool false), ("action", .null), ("event_id", .null),
             ("policy_hash", .null), ("audit_fingerprint_sha256", .null)])
  .obj
    [("schema_version", jsOr ((data.get "contract").get "schema_version")
        (jsOr (data.get "schema_version") (.str "2.0"))),
     ("request_id", jsOr ((data.get "contract").get "request_id")
        (jsOr (data.get "request_id") (jsOr ((data.get "audit").get "event_id") JSVal.null))),
     ("decision", jsOr decisionObj.1 (.str "REVIEW")),
     ("readiness_signal", jsNullish (data.get "readiness_signal")
        (jsNullish (data.get "score") (.str "--"))),
     ("verdict", jsOr (data.get "verdict") (.str "")),
     ("policy_mode", policyMode),
     ("policy_version", policyVer),
     ("policy_hash", policyHash),
     ("audit", .obj
        [("event_id", jsOr ((data.get "audit").get "event_id")
            (jsOr (data.get "event_id") (.str ""))),
         ("audit_fingerprint_sha256", jsOr ((data.get "audit").get "audit_fingerprint_sha256")
            (jsOr (data.get "audit_fingerprint_sha256") (.str "")))]),
     ("latency_ms", if (data.get "latency_ms").typeofStr == "number" then data.get "latency_ms"
                    else JSVal.null),
     ("volatility", .str (jsToUpperCase volatility.toStr)),
     ("volatility_category", .str (jsToUpperCase category.toStr)),
     ("evidence_validation_status", evidenceStatus),
     ("evidence_trust_tier", evidenceTrustTier),
     ("evidence_confidence", evidenceConfidence),
     ("risk_flags", match sig.get "risk_flags" with | .arr xs => JSVal.arr xs | _ => JSVal.arr []),
     ("guardrail", jsNullish (sig.get "guardrail") JSVal.null),
     ("execution_boundary", jsNullish (data.get "execution_boundary") (.bool false)),
     ("execution_commit", executionCommit),
     ("references", match data.get "references" with | .arr xs => JSVal.arr xs | _ => JSVal.arr []),
     ("explanation", jsOr (data.get "explanation") (.str ""))]

/-- Outcome of `postToFirstAvailableEndpoint`: `{ok:true, data, pathUsed}` or
`{ok:false, status, text}`. -/
inductive PostOutcome where
  | success (pathUsed : String) (data : JSVal)
  | failure (status : Nat) (text : String)

/-- part_005 line 342: `const paths = ["/api/score", "/api/runtime"];`. -/
def endpointPaths : List String := ["/api/score", "/api/runtime"]

/-- The
loop of part_005 lines 340-389, `postToFirstAvailableEndpoint`, over the
remaining candidate paths, carrying `lastErrText`: each iteration POSTs the
payload to `CONFIG.API_BASE + path`; a rejected fetch (network error or
timeout abort) records the error and moves on; a 404 records the stripped
body and moves on; any other non-OK status fails immediately; an OK response
whose body fails to parse fails immediately (the fixed text stands for the
`String(e)` of the parse error); an OK parsed response succeeds.  The
returned list is the requests issued (all POSTs, keyed by path). -/
def postLoop (net : String → FetchOutcome) :
    List String → String → List Req × PostOutcome
  | [], lastErrText =>
      ([], .failure 404 (if lastErrText = "" then "No supported endpoint found." else lastErrText))
  | path :: rest, _lastErrText =>
      match net path with
      | .reject m =>
          let out := postLoop net rest m
          (⟨"POST", path⟩ :: out.1, out.2)
      | .resp r =>
          if r.isOk then
            match r.json with
            | some d => ([⟨"POST", path⟩], .success path d)
            | none => ([⟨"POST", path⟩], .failure 0 "SyntaxError: unexpected response body")
          else
            let t0 := stripHtml r.body
            let t := if t0 = "" then "HTTP " ++ toString r.status else t0
            if r.status = 404 then
              let out := postLoop net rest t
              (⟨"POST", path⟩ :: out.1, out.2)
            else ([⟨"POST", path⟩], .failure r.status t)

/-- part_005 lines 340-389, `postToFirstAvailableEndpoint`: run the loop over
`["/api/score", "/api/runtime"]` with an empty `lastErrText`. -/
def postToFirstAvailableEndpoint (net : String → FetchOutcome) :
    List Req × PostOutcome :=
  postLoop net endpointPaths ""

/-- The payload of part_005 line 397:
`{ text, evidence: evidence || "", policy_mode: CONFIG.POLICY_MODE }`. -/
def requestBody (text evidence : String) : List (String × JSVal) :=
  [("text", .str text), ("evidence", jsOr (.str evidence) (.str "")),
   ("policy_mode", .str POLICY_MODE)]

/-- The module-level state of part_005 (lines 102-104): `lastPayload`,
`lastResponsePublic` (the sanitized contract) and `lastEndpointPath`. -/
structure P5State where
  lastPayload : Option (List (String × JSVal))
  lastResponsePublic : Option JSVal
  lastEndpointPath : Option String

/-- Result of one verify click of part_005's `onVerify`. -/
structure P5ClickOut where
  requests : List Req
  state : P5State
  render : ClickRender

/-- part_005 lines 391-429, `onVerify`: trim the inputs, bail out on empty
text, store `lastPayload`, run `postToFirstAvailableEndpoint`; on failure
render the error UI; on success record `lastEndpointPath`, treat a truthy
`error_code` in the body as an error (without storing a response), and
otherwise render the response, storing
`lastResponsePublic = buildPublicContract(data)`. -/
def onVerify (st : P5State) (input evid : String)
    (net : String → FetchOutcome) : P5ClickOut :=
  let text := jsTrim input
  let evidence := jsTrim evid
  if text = "" then { requests := [], state := st, render := .noInput }
  else
    let payload := requestBody text evidence
    let st1 : P5State := { st with lastPayload := some payload }
    match postToFirstAvailableEndpoint net with
    | (reqs, .failure status t) =>
        { requests := reqs, state := st1
          render := .errorUI "could not evaluate. Check backend route and try again."
            (if t ≠ "" then t else if status ≠ 0 then "HTTP " ++ toString status
             else "Unknown error") }
    | (reqs, .success pathUsed d) =>
        let st2 : P5State := { st1 with lastEndpointPath := some pathUsed }
        if (d.get "error_code").truthy then
          { requests := reqs, state := st2
            render := .errorUI ((jsOr (d.get "message") (.str "Request error.")).toStr) "" }
        else
          { requests := reqs
            state := { st2 with lastResponsePublic := some (buildPublicContract d) }
            render := .success d }

end part005

namespace part006

/-- part_006 lines 7-12, `CONFIG`. -/
def API_BASE : String := ""
def POLICY_MODE : String := "enterprise"
def TIMEOUT_MS : ℚ := 15000
def ENDPOINT : String := "/api/evaluate"

/-- The payload of part_006 line 278:
`{ text, evidence: evidence || "", policy_mode: CONFIG.POLICY_MODE }`. -/
def requestBody (text evidence : String) : List (String × JSVal) :=
  [("text", .str text), ("evidence", jsOr (.str evidence) (.str "")),
   ("policy_mode", .str POLICY_MODE)]

/-- part_006 lines 128-137, `setErrorUI`: `--`, `Error`, `REVIEW`, the message,
and the debug text into `result`. -/
def setErrorUI (userMsg debugText : String) : ErrState :=
  { scoreText := some "--"
    verdictText := some "Error"
    actionText := some "REVIEW"
    reasonText := some (if userMsg = "" then "Backend error." else userMsg)
    resultText := some (if debugText ≠ "" then "Backend error:\n" ++ debugText
                        else if userMsg ≠ "" then userMsg else "Backend error.") }

/-- The module-level state of part_006 (lines 85-86). -/
structure P6State where
  lastPayload : Option (List (String × JSVal))
  lastResponse : Option JSVal

/-- Result of one verify click of part_006's `onVerify`. -/
structure P6ClickOut where
  requests : List Req
  state : P6State
  render : ClickRender

/-- part_006 lines 272-322, `onVerify`: trim the inputs, bail out on empty
text, store `lastPayload`, POST once (via `fetchWithTimeout`) to
`CONFIG.API_BASE + CONFIG.ENDPOINT`; a rejection is rendered as a timeout or
network error, a non-OK status and a parse failure as backend errors, a
truthy `error_code` as a request error; only a clean parsed response is
rendered and stored in `lastResponse`.  (The fixed parse-failure detail
stands for the `String(e)` of the parse error.) -/
def onVerify (st : P6State) (input evid : String)
    (net : String → FetchOutcome) : P6ClickOut :=
  let text := jsTrim input
  let evidence := jsTrim evid
  if text = "" then { requests := [], state := st, render := .noInput }
  else
    let payload := requestBody text evidence
    let st1 : P6State := { st with lastPayload := some payload }
    match net (API_BASE ++ ENDPOINT) with
    | .reject m =>
        { requests := [⟨"POST", ENDPOINT⟩], state := st1
          render := .errorUI
            (if strIncludes m "AbortError" then
               "Request timed out. Backend may be waking up. Try again."
             else "could not evaluate. Network or backend unavailable.") m }
    | .resp r =>
        if r.isOk then
          match r.json with
          | some d =>
              if (d.get "error_code").truthy then
                { requests := [⟨"POST", ENDPOINT⟩], state := st1
                  render := .errorUI ((jsOr (d.get "message") (.str "Request error.")).toStr) "" }
              else
                { requests := [⟨"POST", ENDPOINT⟩]
                  state := { st1 with lastResponse := some d }
                  render := .success d }
          | none =>
              { requests := [⟨"POST", ENDPOINT⟩], state := st1
                render := .errorUI "could not parse response JSON."
                  "SyntaxError: unexpected response body" }
        else
          { requests := [⟨"POST", ENDPOINT⟩], state := st1
            render := .errorUI "could not evaluate. Check backend route and try again."
              (if r.body = "" then "HTTP " ++ toString r.status else r.body) }

end part006

/-! ### Claim-level auxiliary definitions -/

/-- The endpoint-path set the spec names: `/verify`, `/score`, `/api/score`,
`/truth-score`, `/api/evaluate` (spec §1/§6).  This definition follows the
spec's words, for comparison with the paths the code actually uses. -/
def specEndpointPaths : List String :=
  ["/verify", "/score", "/api/score", "/truth-score", "/api/evaluate"]

/-- A backend that answers 404 Not Found (with a non-JSON body) on every
path. -/
def net404 : String → FetchOutcome :=
  fun _ => .resp { status := 404, body := "Not Found", json := none }

/-- A network on which every fetch rejects (backend unreachable). -/
def netDown : String → FetchOutcome :=
  fun _ => .reject "TypeError: Failed to fetch"

/-- The gauge parameter is a finite number inside `[lo, hi]` (NaN is outside
every range). -/
def GaugeInRange (n : JNum) (lo hi : ℚ) : Prop :=
  ∃ q, n = .val q ∧ lo ≤ q ∧ q ≤ hi

/-- Second attempt condition of part_005's endpoint loop: the first POST (to
`/api/score`) either rejected or came back with status 404. -/
def p5SecondAttempt (net : String → FetchOutcome) : Prop :=
  (∃ m, net "/api/score" = .reject m) ∨
  (∃ r, net "/api/score" = .resp r ∧ r.status = 404)

/-- An initial module state for the script.js flow. -/
def sstate0 : SState := { lastPayload := none, lastResponse := none }

/-- An initial module state for part_005. -/
def p5state0 : part005.P5State :=
  { lastPayload := none, lastResponsePublic := none, lastEndpointPath := none }

/-- An initial module state for part_006. -/
def p6state0 : part006.P6State := { lastPayload := none, lastResponse := none }

/-- An initial module state for part_008. -/
def p8state0 : part008.P8State := { lastResponseJson := none }

/-! ### C1 -/

/-- **C1, counterexample.**  The claim says the displayed ALLOW/REVIEW/BLOCK
action is read from a field of the backend response and never derived from
the numeric score.  In part_001's `setDecisionGate` (the fallback at lines
79-93), a response carrying no decision/gate field has its action inferred
from the score thresholds: the same gate-less response shape is painted
`ALLOW` at score 90 and `BLOCK` at score 30, so the client does derive the
action from the numeric score. -/
theorem C1_counterexample :
    (part001.setDecisionGate (.obj [("score", .num 90)]) (.num 90)).actionText = "ALLOW" ∧
    (part001.setDecisionGate (.obj [("score", .num 30)]) (.num 30)).actionText = "BLOCK" :=
  ⟨rfl, rfl⟩

/-- **C1, amended.**  The displayed action is read (and normalised) from the
response's decision/gate fields when one is present — script.js reads
`data?.decision?.action || "REVIEW"` with no score dependence at all, and
part_001 maps a present `decision: "allow"` to `ALLOW` whatever the score —
but in part_001, part_002 and part_008, when the response carries no
decision/gate/action field, the client infers the action from the clamped
numeric score by thresholds: `>= 80` ALLOW, `< 50` BLOCK, otherwise REVIEW. -/
theorem C1_amended :
    (∀ q : ℚ,
        (part001.setDecisionGate (.obj [("score", .num q)]) (.num q)).actionText =
          (if 80 ≤ max 0 (min 100 q) then "ALLOW"
           else if max 0 (min 100 q) < 50 then "BLOCK" else "REVIEW")) ∧
    (∀ q : ℚ,
        (part002.setDecisionGateFromBackend (.obj [("score", .num q)]) (.num q)).actionText =
          (if 80 ≤ max 0 (min 100 q) then "ALLOW"
           else if max 0 (min 100 q) < 50 then "BLOCK" else "REVIEW")) ∧
    (∀ q : ℚ,
        (part008.setDecisionGateFromBackend (.obj [("score", .num q)]) (.num q)).actionText =
          (if 80 ≤ max 0 (min 100 q) then "ALLOW"
           else if max 0 (min 100 q) < 50 then "BLOCK" else "REVIEW")) ∧
    (∀ q : ℚ,
        (part001.setDecisionGate (.obj [("decision", .str "allow"), ("score", .num q)])
            (.num q)).actionText = "ALLOW") ∧
    (∀ (fields : List (String × JSVal)) (s1 s2 : JSVal),
        (scriptV1.renderResponse (.obj (("score", s1) :: fields))).actionText =
        (scriptV1.renderResponse (.obj (("score", s2) :: fields))).actionText) :=
  ⟨fun _ => rfl, fun _ => rfl, fun _ => rfl, fun _ => rfl,
   fun fields _ _ => by
     simp only [scriptV1.renderResponse, JSVal.get, List.lookup]
     rfl⟩

/-! ### C2 -/

/-- Every request part_005's endpoint loop issues is a POST to one of the
candidate paths it iterates over. -/
theorem postLoop_requests_subset (net : String → FetchOutcome) :
    ∀ (paths : List String) (lastErr : String),
      ∀ r ∈ (part005.postLoop net paths lastErr).1,
        r.method = "POST" ∧ r.path ∈ paths := by
  intro paths
  induction paths with
  | nil =>
      intro lastErr r hr
      simp [part005.postLoop] at hr
  | cons p rest ih =>
      intro lastErr r hr
      rw [part005.postLoop] at hr
      rcases hnet : net p with m | resp
      · rw [hnet] at hr
        simp only [List.mem_cons] at hr
        rcases hr with hr | hr
        · subst hr; exact ⟨rfl, by simp⟩
        · obtain ⟨h1, h2⟩ := ih m r hr
          exact ⟨h1, by simp [h2]⟩
      · rw [hnet] at hr
        dsimp only at hr
        by_cases hok : resp.isOk = true
        · rw [if_pos hok] at hr
          rcases hj : resp.json with _ | d <;> rw [hj] at hr <;>
            simp only [List.mem_singleton] at hr <;>
            (subst hr; exact ⟨rfl, by simp⟩)
        · rw [if_neg hok] at hr
          by_cases h404 : resp.status = 404
          · rw [if_pos h404] at hr
            simp only [List.mem_cons] at hr
            rcases hr with hr | hr
            · subst hr; exact ⟨rfl, by simp⟩
            · obtain ⟨h1, h2⟩ := ih _ r hr
              exact ⟨h1, by simp [h2]⟩
          · rw [if_neg h404] at hr
            simp only [List.mem_singleton] at hr
            subst hr; exact ⟨rfl, by simp⟩

/-- **C2, counterexample.**  The claim restricts every POST to the path set
`/verify`, `/score`, `/api/score`, `/truth-score`, `/api/evaluate`.  But
part_005's `postToFirstAvailableEndpoint` falls back to `/api/runtime`: on a
backend answering 404, a verify click POSTs to `/api/runtime`, which is
outside the spec's set. -/
theorem C2_counterexample :
    Req.mk "POST" "/api/runtime" ∈ (part005.postToFirstAvailableEndpoint net404).1 ∧
    "/api/runtime" ∉ specEndpointPaths := by
  refine ⟨?_, by decide⟩
  show Req.mk "POST" "/api/runtime" ∈
    (part005.postToFirstAvailableEndpoint net404).1
  have h : (part005.postToFirstAvailableEndpoint net404).1 =
      [⟨"POST", "/api/score"⟩, ⟨"POST", "/api/runtime"⟩] := rfl
  rw [h]; simp

/-- **C2, amended.**  Every request any variant issues to the backend is a
POST whose endpoint path lies in the spec's set extended with
`/api/runtime`: part_005's endpoint loop can POST to `/api/runtime` (outside
the spec's five paths), and every other variant's endpoint is one of the
spec's paths (script.js v1/v3 and part_004 POST `/verify` both relatively
and, after a network failure, via `location.origin`). -/
theorem C2_amended :
    (∀ (net : String → FetchOutcome), ∀ r ∈ (part005.postToFirstAvailableEndpoint net).1,
        r.method = "POST" ∧ r.path ∈ specEndpointPaths ++ ["/api/runtime"]) ∧
    (∀ (origin : String) (net : String → FetchOutcome),
        ∀ r ∈ (scriptV1.callVerify origin net).1,
          r.method = "POST" ∧ r.path ∈ specEndpointPaths) ∧
    part000.BACKEND_ENDPOINT ∈ specEndpointPaths ∧
    part001.API_PATH ∈ specEndpointPaths ∧
    part002.API_PATH ∈ specEndpointPaths ∧
    part003.endpointPath ∈ specEndpointPaths ∧
    scriptV2.endpointPath ∈ specEndpointPaths ∧
    part006.ENDPOINT ∈ specEndpointPaths ∧
    part007.API_VERIFY ∈ specEndpointPaths ∧
    part008.API_PATH ∈ specEndpointPaths := by
  refine ⟨?_, ?_, by decide, by decide, by decide, by decide, by decide,
    by decide, by decide, by decide⟩
  · intro net r hr
    obtain ⟨h1, h2⟩ := postLoop_requests_subset net part005.endpointPaths "" r hr
    refine ⟨h1, ?_⟩
    simp only [part005.endpointPaths, List.mem_cons, List.not_mem_nil, or_false] at h2
    rcases h2 with h2 | h2 <;> simp [h2, specEndpointPaths]
  · intro origin net r hr
    unfold scriptV1.callVerify at hr
    rcases hnet : net "/verify" with m | resp <;> rw [hnet] at hr
    · rcases hnet2 : net (origin ++ "/verify") with m2 | resp2 <;> rw [hnet2] at hr <;>
        (simp only [List.mem_cons, List.mem_singleton, List.not_mem_nil, or_false] at hr;
         rcases hr with hr | hr <;> (subst hr; exact ⟨rfl, by decide⟩))
    · simp only [List.mem_singleton] at hr
      subst hr; exact ⟨rfl, by decide⟩

/-- **C2, witness** for the amended theorem: the request part_005 sends to
`/api/runtime` on an all-404 backend is a POST into the extended path set. -/
theorem C2_witness :
    (Req.mk "POST" "/api/runtime").method = "POST" ∧
    (Req.mk "POST" "/api/runtime").path ∈ specEndpointPaths ++ ["/api/runtime"] :=
  C2_amended.1 net404 ⟨"POST", "/api/runtime"⟩ (by
    have h : (part005.postToFirstAvailableEndpoint net404).1 =
        [⟨"POST", "/api/score"⟩, ⟨"POST", "/api/runtime"⟩] := rfl
    rw [h]; simp)

/-! ### C3 -/

/-- Over a single-path candidate list, part_005's endpoint loop issues
exactly one request, whatever the network does. -/
theorem postLoop_singleton_requests (net : String → FetchOutcome)
    (p lastErr : String) :
    (part005.postLoop net [p] lastErr).1 = [Req.mk "POST" p] := by
  rw [part005.postLoop]
  cases hnet : net p with
  | reject m =>
      try dsimp only
      rw [part005.postLoop]
  | resp r =>
      dsimp only
      by_cases hok : r.isOk = true
      · rw [if_pos hok]
        rcases r.json with _ | d <;> rfl
      · rw [if_neg hok]
        try dsimp only
        by_cases h404 : r.status = 404
        · rw [if_pos h404]
          try dsimp only
          rw [part005.postLoop]
        · rw [if_neg h404]

/-- **C3, counterexample.**  The claim says that after a fetch to the backend
fails, no further request is issued for that click before the error state is
rendered.  But script.js's `callVerify` retries: on a network where every
fetch rejects, the relative `/verify` fetch fails and a second POST (to
`location.origin + "/verify"`) is issued before `setErrorUI` runs — one click,
two requests. -/
theorem C3_counterexample :
    (∃ m, netDown "/verify" = .reject m) ∧
    (scriptV1.callVerify "https://trucite.example" netDown).1 =
      [⟨"POST", "/verify"⟩, ⟨"POST", "/verify"⟩] :=
  ⟨⟨"TypeError: Failed to fetch", rfl⟩, rfl⟩

/-- **C3, amended.**  script.js v1 (and the identical part_004 / third-variant
code) issues exactly one request per click when the relative `/verify` fetch
resolves, and exactly two — the absolute-URL retry — when it rejects;
part_005 issues one request unless the `/api/score` attempt rejects or
returns 404, in which case it POSTs once more to `/api/runtime`; every other
variant — part_000, part_001, part_002, part_003, part_006, part_007,
part_008 and the standalone `scoreText` variant of script.js — issues at
most one request per click.  No other retry exists. -/
theorem C3_amended :
    (∀ (origin : String) (net : String → FetchOutcome),
        ((∃ r, net "/verify" = .resp r) ∧ (scriptV1.callVerify origin net).1.length = 1) ∨
        ((∃ m, net "/verify" = .reject m) ∧ (scriptV1.callVerify origin net).1.length = 2)) ∧
    (∀ net : String → FetchOutcome,
        ((part005.postToFirstAvailableEndpoint net).1 = [⟨"POST", "/api/score"⟩] ∧
           ¬ p5SecondAttempt net) ∨
        ((part005.postToFirstAvailableEndpoint net).1 =
            [⟨"POST", "/api/score"⟩, ⟨"POST", "/api/runtime"⟩] ∧ p5SecondAttempt net)) ∧
    (∀ (input : String) (net : String → FetchOutcome),
        (part000.scoreText input net).requests.length ≤ 1) ∧
    (∀ (st : part006.P6State) (input evid : String) (net : String → FetchOutcome),
        (part006.onVerify st input evid net).requests.length ≤ 1) ∧
    (∀ (st : part008.P8State) (input evid : String) (net : String → FetchOutcome),
        (part008.scoreText st input evid net).requests.length ≤ 1) ∧
    (∀ (input evid : String) (net : String → FetchOutcome),
        (part001.scoreText input evid net).requests.length ≤ 1) ∧
    (∀ (input evid : String) (net : String → FetchOutcome),
        (part002.scoreText input evid net).requests.length ≤ 1) ∧
    (∀ (input : String) (net : String → FetchOutcome),
        (part003.scoreText input net).requests.length ≤ 1) ∧
    (∀ (input evid : String) (net : String → FetchOutcome),
        (part007.scoreText input evid net).requests.length ≤ 1) ∧
    (∀ (input evid : String) (net : String → FetchOutcome),
        (scriptV2.scoreText input evid net).requests.length ≤ 1) := by
  refine ⟨?_, ?_, ?_, ?_, ?_, ?_, ?_, ?_, ?_, ?_⟩
  · intro origin net
    unfold scriptV1.callVerify
    rcases hnet : net "/verify" with m | r
    · right
      refine ⟨⟨m, rfl⟩, ?_⟩
      rcases net (origin ++ "/verify") with m2 | r2 <;> rfl
    · exact Or.inl ⟨⟨r, rfl⟩, rfl⟩
  · intro net
    unfold part005.postToFirstAvailableEndpoint part005.endpointPaths
    cases hnet : net "/api/score" with
    | reject m =>
        right
        refine ⟨?_, Or.inl ⟨m, hnet⟩⟩
        rw [part005.postLoop, hnet]
        try dsimp only
        rw [postLoop_singleton_requests]
    | resp r =>
        rw [part005.postLoop, hnet]
        dsimp only
        by_cases hok : r.isOk = true
        · rw [if_pos hok]
          left
          refine ⟨?_, ?_⟩
          · rcases r.json with _ | d <;> rfl
          · rintro (⟨m, hm⟩ | ⟨r', hr', h404⟩)
            · rw [hnet] at hm; cases hm
            · rw [hnet] at hr'
              injection hr' with h
              subst h
              rw [HttpResp.isOk, h404] at hok
              exact absurd hok (by decide)
        · rw [if_neg hok]
          try dsimp only
          by_cases h404 : r.status = 404
          · rw [if_pos h404]
            right
            refine ⟨?_, Or.inr ⟨r, hnet, h404⟩⟩
            try dsimp only
            rw [postLoop_singleton_requests]
          · rw [if_neg h404]
            left
            refine ⟨rfl, ?_⟩
            rintro (⟨m, hm⟩ | ⟨r', hr', h404'⟩)
            · rw [hnet] at hm; cases hm
            · rw [hnet] at hr'
              injection hr' with h
              subst h
              exact h404 h404'
  · intro input net
    unfold part000.scoreText
    by_cases h : jsTrim input = ""
    · simp [h]
    · rw [if_neg h]
      rcases net part000.BACKEND_ENDPOINT with m | r
      · exact Nat.le_refl 1
      · dsimp only
        by_cases hok : r.isOk = true
        · rw [if_pos hok]; rcases r.json with _ | d <;> exact Nat.le_refl 1
        · rw [if_neg hok]; exact Nat.le_refl 1
  · intro st input evid net
    unfold part006.onVerify
    by_cases h : jsTrim input = ""
    · simp [h]
    · rw [if_neg h]
      rcases net (part006.API_BASE ++ part006.ENDPOINT) with m | r
      · exact Nat.le_refl 1
      · dsimp only
        by_cases hok : r.isOk = true
        · rw [if_pos hok]
          rcases r.json with _ | d
          · exact Nat.le_refl 1
          · dsimp only
            by_cases he : ((d.get "error_code").truthy : Bool) = true
            · rw [if_pos he]; exact Nat.le_refl 1
            · rw [if_neg he]; exact Nat.le_refl 1
        · rw [if_neg hok]; exact Nat.le_refl 1
  · intro st input evid net
    unfold part008.scoreText
    by_cases h : jsTrim input = ""
    · simp [h]
    · rw [if_neg h]
      rcases net part008.API_PATH with m | r
      · exact Nat.le_refl 1
      · dsimp only
        by_cases hok : r.isOk = true
        · rw [if_pos hok]; rcases r.json with _ | d <;> exact Nat.le_refl 1
        · rw [if_neg hok]; exact Nat.le_refl 1
  · intro input evid net
    unfold part001.scoreText
    by_cases h : jsTrim input = ""
    · simp [h]
    · rw [if_neg h]
      rcases net part001.API_PATH with m | r
      · exact Nat.le_refl 1
      · dsimp only
        by_cases hok : r.isOk = true
        · rw [if_pos hok]; rcases r.json with _ | d <;> exact Nat.le_refl 1
        · rw [if_neg hok]; exact Nat.le_refl 1
  · intro input evid net
    unfold part002.scoreText
    by_cases h : jsTrim input = ""
    · simp [h]
    · rw [if_neg h]
      rcases net part002.API_PATH with m | r
      · exact Nat.le_refl 1
      · dsimp only
        by_cases hok : r.isOk = true
        · rw [if_pos hok]; rcases r.json with _ | d <;> exact Nat.le_refl 1
        · rw [if_neg hok]; exact Nat.le_refl 1
  · intro input net
    unfold part003.scoreText
    by_cases h : jsTrim input = ""
    · simp [h]
    · rw [if_neg h]
      rcases net (part003.API_BASE ++ part003.endpointPath) with m | r
      · exact Nat.le_refl 1
      · dsimp only
        by_cases hok : r.isOk = true
        · rw [if_pos hok]; rcases r.json with _ | d <;> exact Nat.le_refl 1
        · rw [if_neg hok]; exact Nat.le_refl 1
  · intro input evid net
    unfold part007.scoreText
    by_cases h : jsTrim input = ""
    · simp [h]
    · rw [if_neg h]
      rcases net part007.API_VERIFY with m | r
      · exact Nat.le_refl 1
      · dsimp only
        by_cases hok : r.isOk = true
        · rw [if_pos hok]; rcases r.json with _ | d <;> exact Nat.le_refl 1
        · rw [if_neg hok]; exact Nat.le_refl 1
  · intro input evid net
    unfold scriptV2.scoreText
    by_cases h : jsTrim input = ""
    · simp [h]
    · rw [if_neg h]
      rcases net scriptV2.endpointPath with m | r
      · exact Nat.le_refl 1
      · dsimp only
        by_cases hok : r.isOk = true
        · rw [if_pos hok]; rcases r.json with _ | d <;> exact Nat.le_refl 1
        · rw [if_neg hok]; exact Nat.le_refl 1

/-! ### C4 -/

/-- **C4, counterexample.**  The claim says no variant ever aborts an
in-flight request.  But part_005 and part_006 route every request through
`fetchWithTimeout`, whose timer aborts the fetch via its `AbortController`
once `CONFIG.TIMEOUT_MS` (15000 ms) elapses: a request still in flight at
20000 ms is aborted before it completes. -/
theorem C4_counterexample :
    fetchWithTimeoutEnd 20000 part005.TIMEOUT_MS = .aborted ∧
    fetchWithTimeoutEnd 20000 part006.TIMEOUT_MS = .aborted := by
  constructor <;> decide

/-- **C4, amended.**  Variants other than part_005 and part_006 never abort a
request; part_005 and part_006 abort an in-flight request exactly when its
duration exceeds their `CONFIG.TIMEOUT_MS` of 15000 ms. -/
theorem C4_amended :
    (∀ d : ℚ, fetchWithTimeoutEnd d part005.TIMEOUT_MS = .aborted ↔ part005.TIMEOUT_MS < d) ∧
    (∀ d : ℚ, fetchWithTimeoutEnd d part006.TIMEOUT_MS = .aborted ↔ part006.TIMEOUT_MS < d) := by
  constructor <;>
    (intro d
     unfold fetchWithTimeoutEnd
     split_ifs with h
     · simp [not_lt.mpr h]
     · simp [not_le.mp h])

/-- **C4, witness** for the amended theorem at a request lasting 16000 ms
against part_006's 15000 ms timeout. -/
theorem C4_witness : fetchWithTimeoutEnd 16000 part006.TIMEOUT_MS = .aborted :=
  (C4_amended.2 16000).mpr (by norm_num [part006.TIMEOUT_MS])

/-! ### C5 -/

/-- `v || ""` on a string value is that string value. -/
theorem jsOr_str_emptyDefault (e : String) : jsOr (.str e) (.str "") = JSVal.str e := by
  by_cases h : e = "" <;> simp [jsOr, JSVal.truthy, h]

/-- **C5, counterexample.**  The claim says `evidence`, when present in the
serialized body, is always a string and never null.  But part_007 serializes
`{ text, evidence: evidence || null }`: with the evidence box empty, the
trimmed evidence string is falsy and the body's `evidence` field is `null`. -/
theorem C5_counterexample :
    (part007.requestBody "Aspirin cures headaches." "").lookup "evidence" =
      some JSVal.null ∧
    JSVal.null.isStr = false :=
  ⟨rfl, rfl⟩

/-- **C5, amended.**  In every variant the serialized body's `text` is the
trimmed input string and `policy_mode`, when present, is the string
`"enterprise"`; `evidence`, when present, is the trimmed evidence string in
every variant except part_007, which serializes `null` when the trimmed
evidence is empty (and the string otherwise). -/
theorem C5_amended :
    (∀ t e : String, scriptV1.requestBody t e =
        [("text", .str t), ("evidence", .str e), ("policy_mode", .str "enterprise")]) ∧
    (∀ t e : String, scriptV2.requestBody t e = [("text", .str t), ("evidence", .str e)]) ∧
    (∀ t : String, part000.requestBody t = [("text", .str t)]) ∧
    (∀ t e : String, part001.requestBody t e = [("text", .str t), ("evidence", .str e)]) ∧
    (∀ t e : String, part002.requestBody t e = [("text", .str t), ("evidence", .str e)]) ∧
    (∀ t : String, part003.requestBody t = [("text", .str t)]) ∧
    (∀ t e : String, part005.requestBody t e =
        [("text", .str t), ("evidence", .str e), ("policy_mode", .str "enterprise")]) ∧
    (∀ t e : String, part006.requestBody t e =
        [("text", .str t), ("evidence", .str e), ("policy_mode", .str "enterprise")]) ∧
    (∀ t e : String, part008.requestBody t e =
        [("text", .str t), ("evidence", .str e), ("policy_mode", .str "enterprise")]) ∧
    (∀ t e : String, part007.requestBody t e =
        [("text", .str t), ("evidence", if e = "" then JSVal.null else .str e)]) := by
  refine ⟨?_, fun _ _ => rfl, fun _ => rfl, fun _ _ => rfl, fun _ _ => rfl, fun _ => rfl,
    ?_, ?_, fun _ _ => rfl, ?_⟩
  · intro t e
    unfold scriptV1.requestBody
    rw [jsOr_str_emptyDefault]
  · intro t e
    unfold part005.requestBody
    rw [jsOr_str_emptyDefault]
    rfl
  · intro t e
    unfold part006.requestBody
    rw [jsOr_str_emptyDefault]
    rfl
  · intro t e
    unfold part007.requestBody
    by_cases h : e = "" <;> simp [jsOr, JSVal.truthy, h]

/-! ### C6 -/

/-- **C6, counterexample.**  The claim says every failure is rendered as an
error state whose decision action reads `REVIEW`.  part_000's catch block
(`HARD FAIL — NO FAKE SCORE`) paints no decision action at all — its page has
no decision-gate element — and shows the verdict `Backend connection failed`
instead. -/
theorem C6_counterexample :
    (part000.catchRender "TypeError: Failed to fetch").actionText = none ∧
    (part000.catchRender "TypeError: Failed to fetch").actionText ≠ some "REVIEW" ∧
    (part000.catchRender "TypeError: Failed to fetch").verdictText =
      some "Backend connection failed" :=
  ⟨rfl, by decide, rfl⟩

/-- **C6, amended.**  Every failure is caught (each variant's scoring flow
runs inside try/catch, as the total click models above reflect), but only the
variants that render a decision gate set its action to `REVIEW` on error:
script.js v1/v3, part_001, part_002, part_004, part_005, part_006, part_008.
part_000, part_003, part_007 and the standalone second script.js variant
render only an error verdict (`Backend connection failed`, `Error`,
`Engine error`) and touch no decision action. -/
theorem C6_amended :
    (∀ m d, (scriptV1.setErrorUI m d).actionText = some "REVIEW") ∧
    (∀ m d, (part005.setErrorUI m d).actionText = some "REVIEW") ∧
    (∀ m d, (part006.setErrorUI m d).actionText = some "REVIEW") ∧
    (∀ e, (part001.catchRender e).actionText = some "REVIEW") ∧
    (∀ e, (part000.catchRender e).actionText = none ∧
          (part000.catchRender e).verdictText = some "Backend connection failed") ∧
    (∀ e, (part003.catchRender e).actionText = none ∧
          (part003.catchRender e).verdictText = some "Error") ∧
    (∀ e, (part007.catchRender e).actionText = none ∧
          (part007.catchRender e).verdictText = some "Engine error") ∧
    (∀ e, (scriptV2.catchRender e).actionText = none ∧
          (scriptV2.catchRender e).verdictText = some "Engine error") :=
  ⟨fun _ _ => rfl, fun _ _ => rfl, fun _ _ => rfl, fun _ => rfl,
   fun _ => ⟨rfl, rfl⟩, fun _ => ⟨rfl, rfl⟩, fun _ => ⟨rfl, rfl⟩, fun _ => ⟨rfl, rfl⟩⟩

/-! ### C7 -/

/-- **C7, counterexample.**  The claim says the decision-action element only
ever shows `ALLOW`, `REVIEW` or `BLOCK` (up to the pending placeholder).  But
script.js's `renderResponse` paints `data?.decision?.action || "REVIEW"`
verbatim: a response whose action is `FROBNICATE` is rendered as
`FROBNICATE`. -/
theorem C7_counterexample :
    (scriptV1.renderResponse
        (.obj [("decision", .obj [("action", .str "FROBNICATE")])])).actionText =
      "FROBNICATE" ∧
    "FROBNICATE" ∉ (["ALLOW", "REVIEW", "BLOCK", "—"] : List String) :=
  ⟨rfl, by decide⟩

/-- **C7, amended.**  Only part_001 (and part_002/part_008 for string or
missing actions) normalises the painted action into the
`ALLOW`/`BLOCK`/`REVIEW` set; script.js v1/v3 and part_004 paint the backend's
action string verbatim, defaulting to `REVIEW` only when the field is falsy
(part_005/part_006 behave like script.js after upper-casing). -/
theorem C7_amended :
    (∀ (fields : List (String × JSVal)) (score : JSVal),
        (part001.setDecisionGate (.obj fields) score).actionText ∈
          (["ALLOW", "BLOCK", "REVIEW"] : List String)) ∧
    (∀ (s : String) (score : JSVal),
        (part002.setDecisionGateFromBackend
            (.obj [("decision", .obj [("action", .str s)])]) score).actionText ∈
          (["ALLOW", "BLOCK", "REVIEW"] : List String)) ∧
    (∀ (s : String) (score : JSVal),
        (part008.setDecisionGateFromBackend
            (.obj [("decision", .obj [("action", .str s)])]) score).actionText ∈
          (["ALLOW", "BLOCK", "REVIEW"] : List String)) ∧
    (∀ s : String,
        (scriptV1.renderResponse
            (.obj [("decision", .obj [("action", .str s)])])).actionText =
          (if s = "" then "REVIEW" else s)) := by
  refine ⟨?_, ?_, ?_, ?_⟩
  · intro fields score
    unfold part001.setDecisionGate
    dsimp only
    split
    · split_ifs <;> simp
    · rename_i a heq
      split at heq <;> split_ifs at heq <;>
        first
          | (injection heq with h; subst h; simp)
          | exact Option.noConfusion heq
  · intro s score
    unfold part002.setDecisionGateFromBackend
    simp only [apply_ite GateUI.actionText]
    by_cases hs : s = ""
    · subst hs
      simp [JSVal.get, List.lookup, jsOr, jsAnd, JSVal.truthy, JSVal.typeofStr]
      split_ifs <;>
        first
          | (simp_all [JSVal.toStr]; done)
          | (norm_num at *; tauto)
          | (norm_num at *; left; intro hlt; linarith)
    · simp [JSVal.get, List.lookup, jsOr, jsAnd, JSVal.truthy, JSVal.typeofStr, hs,
        apply_ite JSVal.truthy, apply_ite JSVal.toStr]
      split_ifs <;>
        first
          | (simp_all [JSVal.toStr]; done)
          | (norm_num at *; tauto)
          | (norm_num at *; left; intro hlt; linarith)
  · intro s score
    unfold part008.setDecisionGateFromBackend
    simp only [apply_ite GateUI.actionText]
    by_cases hs : s = ""
    · subst hs
      simp [JSVal.get, List.lookup, jsOr, jsAnd, JSVal.truthy, JSVal.typeofStr]
      split_ifs <;>
        first
          | (simp_all [JSVal.toStr]; done)
          | (norm_num at *; tauto)
          | (norm_num at *; left; intro hlt; linarith)
    · simp [JSVal.get, List.lookup, jsOr, jsAnd, JSVal.truthy, JSVal.typeofStr, hs,
        apply_ite JSVal.truthy, apply_ite JSVal.toStr]
      split_ifs <;>
        first
          | (simp_all [JSVal.toStr]; done)
          | (norm_num at *; tauto)
          | (norm_num at *; left; intro hlt; linarith)
  · intro s
    by_cases hs : s = "" <;>
      simp [scriptV1.renderResponse, JSVal.get, List.lookup, jsOr, JSVal.truthy,
        JSVal.toStr, hs]

/-! ### C8 -/

/-- **C8, counterexample.**  The claim says every gauge-update function in
every variant keeps the computed parameter in range because the score is
first coerced with `Number(.) || 0`.  part_007's `setGauge` has no such
coercion — it clamps the raw value with `Math.max`/`Math.min`, which
propagate NaN — so a non-numeric input yields a NaN stroke-dashoffset,
outside `[0, 260]`. -/
theorem C8_counterexample :
    part007.setGauge (.str "abc") = JNum.nan ∧
    ¬ GaugeInRange (part007.setGauge (.str "abc")) 0 260 := by
  have h : part007.setGauge (.str "abc") = JNum.nan := rfl
  refine ⟨h, ?_⟩
  rw [h]
  rintro ⟨q, hq, -, -⟩
  cases hq

/-- **C8, amended.**  In the gauge functions that do coerce with
`Number(.) || 0` — script.js's rotation gauge, part_001's (= part_002's =
part_008's) and part_005's dashoffset gauges — the parameter stays in range
for every input value whatsoever: the rotation lies in `[0, 180]` and the
dashoffset in `[0, 260]`.  part_007's `setGauge` lacks the coercion; its
offset stays in `[0, 260]` for every finite numeric input (its only caller
passes numbers taken from parsed JSON), but NaN propagates. -/
theorem C8_amended :
    (∀ v : JSVal, 0 ≤ scriptV1.updateGauge v ∧ scriptV1.updateGauge v ≤ 180) ∧
    (∀ v : JSVal, 0 ≤ (part001.setGauge v).1 ∧ (part001.setGauge v).1 ≤ 260) ∧
    (∀ v : JSVal, 0 ≤ part005.updateGauge v ∧ part005.updateGauge v ≤ 260) ∧
    (∀ q : ℚ, GaugeInRange (part007.setGauge (.num q)) 0 260) := by
  have hs : ∀ x : ℚ, 0 ≤ max 0 (min 100 x) ∧ max 0 (min 100 x) ≤ 100 := fun x =>
    ⟨le_max_left _ _, max_le (by norm_num) (min_le_left _ _)⟩
  have h100 : (0:ℚ) < 100 := by norm_num
  refine ⟨fun v => ?_, fun v => ?_, fun v => ?_, fun q => ?_⟩
  · obtain ⟨h0, h1⟩ := hs (numOr0 (JSVal.toNumber v))
    unfold scriptV1.updateGauge
    constructor
    · exact mul_nonneg (div_nonneg h0 (le_of_lt h100)) (by norm_num)
    · rw [div_mul_eq_mul_div, div_le_iff h100]
      nlinarith
  · obtain ⟨h0, h1⟩ := hs (numOr0 (JSVal.toNumber v))
    unfold part001.setGauge
    constructor
    · rw [sub_nonneg, div_le_iff h100]
      nlinarith
    · exact sub_le_self _ (div_nonneg (by nlinarith) (le_of_lt h100))
  · obtain ⟨h0, h1⟩ := hs (numOr0 (JSVal.toNumber v))
    unfold part005.updateGauge
    constructor
    · rw [sub_nonneg, div_mul_eq_mul_div, div_le_iff h100]
      nlinarith
    · refine sub_le_self _ ?_
      rw [div_mul_eq_mul_div]
      exact div_nonneg (by nlinarith) (le_of_lt h100)
  · obtain ⟨h0, h1⟩ := hs q
    refine ⟨260 - 260 * (max 0 (min 100 q) / 100), rfl, ?_, ?_⟩
    · rw [sub_nonneg]
      nlinarith [div_le_one_of_le h1 (le_of_lt h100)]
    · refine sub_le_self _ ?_
      exact mul_nonneg (by norm_num) (div_nonneg h0 (le_of_lt h100))

/-! ### C9 -/

/-- **C9.**  In every variant that keeps a last-response module variable, the
variable is assigned only on the success path — an OK status whose body
parsed as JSON (and, for part_005/part_006, that carries no `error_code`) —
and every error path leaves it at its previous value: for any starting state,
inputs and network behaviour, either the stored last response is unchanged,
or the click rendered a success and the store holds exactly that response
(part_005 stores its sanitized `buildPublicContract`).  The script.js flow
modelled here is the verbatim code of its first and third variants and of
part_004. -/
theorem C9_confirmed :
    (∀ (st : SState) (input evid origin : String) (net : String → FetchOutcome),
        (scriptV1.onVerify st input evid origin net).state.lastResponse = st.lastResponse ∨
        (∃ d, (scriptV1.onVerify st input evid origin net).render = .success d ∧
              (scriptV1.onVerify st input evid origin net).state.lastResponse = some d)) ∧
    (∀ (st : part005.P5State) (input evid : String) (net : String → FetchOutcome),
        (part005.onVerify st input evid net).state.lastResponsePublic =
          st.lastResponsePublic ∨
        (∃ d, (part005.onVerify st input evid net).render = .success d ∧
              (part005.onVerify st input evid net).state.lastResponsePublic =
                some (part005.buildPublicContract d))) ∧
    (∀ (st : part006.P6State) (input evid : String) (net : String → FetchOutcome),
        (part006.onVerify st input evid net).state.lastResponse = st.lastResponse ∨
        (∃ d, (part006.onVerify st input evid net).render = .success d ∧
              (part006.onVerify st input evid net).state.lastResponse = some d)) ∧
    (∀ (st : part008.P8State) (input evid : String) (net : String → FetchOutcome),
        (part008.scoreText st input evid net).state.lastResponseJson =
          st.lastResponseJson ∨
        (∃ d, (part008.scoreText st input evid net).render = .success d ∧
              (part008.scoreText st input evid net).state.lastResponseJson = some d)) := by
  refine ⟨?_, ?_, ?_, ?_⟩
  · intro st input evid origin net
    unfold scriptV1.onVerify
    by_cases ht : jsTrim input = ""
    · rw [if_pos ht]; left; rfl
    · rw [if_neg ht]
      rcases hcall : scriptV1.callVerify origin net with ⟨reqs, m | r⟩
      · left; rfl
      · try dsimp only
        by_cases hok : r.isOk = true
        · rw [if_pos hok]
          rcases hj : r.json with _ | d
          · left; rfl
          · right; exact ⟨d, rfl, rfl⟩
        · rw [if_neg hok]; left; rfl
  · intro st input evid net
    unfold part005.onVerify
    by_cases ht : jsTrim input = ""
    · rw [if_pos ht]; left; rfl
    · rw [if_neg ht]
      rcases hpost : part005.postToFirstAvailableEndpoint net with ⟨reqs, ⟨p, d⟩ | ⟨fs, ft⟩⟩
      · try dsimp only
        by_cases he : ((d.get "error_code").truthy : Bool) = true
        · rw [if_pos he]; left; rfl
        · rw [if_neg he]; right; exact ⟨d, rfl, rfl⟩
      · left; rfl
  · intro st input evid net
    unfold part006.onVerify
    by_cases ht : jsTrim input = ""
    · rw [if_pos ht]; left; rfl
    · rw [if_neg ht]
      rcases hnet : net (part006.API_BASE ++ part006.ENDPOINT) with m | r
      · left; rfl
      · try dsimp only
        by_cases hok : r.isOk = true
        · rw [if_pos hok]
          rcases hj : r.json with _ | d
          · left; rfl
          · try dsimp only
            by_cases he : ((d.get "error_code").truthy : Bool) = true
            · rw [if_pos he]; left; rfl
            · rw [if_neg he]; right; exact ⟨d, rfl, rfl⟩
        · rw [if_neg hok]; left; rfl
  · intro st input evid net
    unfold part008.scoreText
    by_cases ht : jsTrim input = ""
    · rw [if_pos ht]; left; rfl
    · rw [if_neg ht]
      rcases hnet : net part008.API_PATH with m | r
      · left; rfl
      · try dsimp only
        by_cases hok : r.isOk = true
        · rw [if_pos hok]
          rcases hj : r.json with _ | d
          · left; rfl
          · right; exact ⟨d, rfl, rfl⟩
        · rw [if_neg hok]; left; rfl

/-! ### C10 -/

/-- **C10.**  In every variant — the script.js v1 flow (verbatim also its
third variant and part_004), the standalone `scoreText` variant of script.js,
and part_000 through part_008 — an input that trims to the empty string makes
the verify handler return early: no request is issued, the module state
(last payload / last response) is unchanged, and the early-return branch is
rendered. -/
theorem C10_confirmed :
    ∀ input : String, jsTrim input = "" →
      (∀ (st : SState) (evid origin : String) (net : String → FetchOutcome),
          scriptV1.onVerify st input evid origin net =
            { requests := [], state := st, render := .noInput }) ∧
      (∀ net : String → FetchOutcome,
          part000.scoreText input net = { requests := [], render := .noInput }) ∧
      (∀ (st : part008.P8State) (evid : String) (net : String → FetchOutcome),
          part008.scoreText st input evid net =
            { requests := [], state := st, render := .noInput }) ∧
      (∀ (st : part005.P5State) (evid : String) (net : String → FetchOutcome),
          part005.onVerify st input evid net =
            { requests := [], state := st, render := .noInput }) ∧
      (∀ (st : part006.P6State) (evid : String) (net : String → FetchOutcome),
          part006.onVerify st input evid net =
            { requests := [], state := st, render := .noInput }) ∧
      (∀ (evid : String) (net : String → FetchOutcome),
          part001.scoreText input evid net = { requests := [], render := .noInput }) ∧
      (∀ (evid : String) (net : String → FetchOutcome),
          part002.scoreText input evid net = { requests := [], render := .noInput }) ∧
      (∀ net : String → FetchOutcome,
          part003.scoreText input net = { requests := [], render := .noInput }) ∧
      (∀ (evid : String) (net : String → FetchOutcome),
          part007.scoreText input evid net = { requests := [], render := .noInput }) ∧
      (∀ (evid : String) (net : String → FetchOutcome),
          scriptV2.scoreText input evid net = { requests := [], render := .noInput }) := by
  intro input h
  refine ⟨fun st evid origin net => ?_, fun net => ?_, fun st evid net => ?_,
    fun st evid net => ?_, fun st evid net => ?_, fun evid net => ?_,
    fun evid net => ?_, fun net => ?_, fun evid net => ?_, fun evid net => ?_⟩
  · unfold scriptV1.onVerify; rw [if_pos h]
  · unfold part000.scoreText; rw [if_pos h]
  · unfold part008.scoreText; rw [if_pos h]
  · unfold part005.onVerify; rw [if_pos h]
  · unfold part006.onVerify; rw [if_pos h]
  · unfold part001.scoreText; rw [if_pos h]
  · unfold part002.scoreText; rw [if_pos h]
  · unfold part003.scoreText; rw [if_pos h]
  · unfold part007.scoreText; rw [if_pos h]
  · unfold scriptV2.scoreText; rw [if_pos h]

/-- **C10, witness**: a whitespace-only input (one space, one tab) makes
part_000's `scoreText` issue no request and render the early return. -/
theorem C10_witness :
    part000.scoreText " \t " netDown =
      { requests := [], render := ClickRender.noInput } :=
  (C10_confirmed " \t " (by decide)).2.1 netDown

end TruCite
